import Mathlib

/-!
# Verification of the hearty-store storage engine (src/part2/src)

A shallow embedding of the hearty-store command family
(`hearty-store-init/put/get/ha/destroy/replicate`) over an abstract
filesystem state, together with theorems settling the frozen claims.

Conventions of the embedding:
* The filesystem is a map from store ids to store directories and from HA
  group ids to group directories.  A store directory holds the (optional)
  `data.bin` and `metadata.bin` files; a group directory holds `parity.bin`
  and `status.data`.
* Byte contents are modelled as functions `Nat → Nat` (values are bytes,
  XOR is `Nat.xor`, which never overflows a byte when the inputs are bytes).
* Randomness (`generateUniqueId`, `generateNewStoreId`) and the clock are
  modelled as explicit oracle parameters.
* Checked I/O failures (`if (!file)`) that depend on the environment are
  modelled by explicit fault flags where a claim is about them (init);
  elsewhere the nominal outcome of each open/read/write is determined by
  the filesystem state, exactly following the source's control flow.
* Small C++ streams are buffered (libstdc++ reads a small file into the
  stream buffer on first read), so a record read from a just-opened stream
  is modelled as a snapshot of the file taken at open time, even if the
  same path is truncated and rewritten while the stream is open
  (hearty-store-destroy.cpp reads `status.data` this way).
* `metadata.bin` records are raw `file.write(reinterpret_cast<...>, sizeof ...)`
  dumps of in-memory structs.  Plain ints/size_t/bool fields round-trip
  byte-for-byte; the `std::string object_id` member of a block descriptor
  does not — the dump is the string *object* (pointer/size/SSO bytes), not
  its characters — so a later process cannot recover a stored object id.
  See `danglingId`/`reloadDescriptor`/`MetaFile.descView`.
-/

namespace HeartyStore

/-- `BLOCK_SIZE`, hearty-store-common.hpp:5 (1 MiB). -/
def BLOCK_SIZE : Nat := 1024 * 1024

/-- `NUM_BLOCKS`, hearty-store-common.hpp:6. -/
def NUM_BLOCKS : Nat := 1024

/-- `BlockMetadata`, hearty-store-common.hpp:13-18.  The field defaults are
the value-initialized contents a freshly `resize`d descriptor has (and what
a failed `file.read` leaves behind). -/
structure BlockMetadata where
  is_used : Bool := false
  object_id : String := ""
  data_size : Nat := 0
  timestamp : Nat := 0
deriving DecidableEq

instance : Inhabited BlockMetadata := ⟨{}⟩

/-- `StoreMetadata` (the store header), hearty-store-common.hpp:20-29. -/
structure StoreMetadata where
  store_id : Int
  total_blocks : Nat
  block_size : Nat
  used_blocks : Nat
  is_replica : Bool
  replica_of : Int
  ha_group_id : Int
  is_destroyed : Bool
deriving DecidableEq

/-- The on-disk `metadata.bin` image: the store header followed by
`descCount` block descriptors (descriptor `i` is `descs i` for
`i < descCount`).  A full image written by `StorePut::saveMetadata`
(hearty-store-put.cpp:51-68) has `descCount = NUM_BLOCKS`; the truncating
header-only rewrites in hearty-store-ha.cpp:46-51,
hearty-store-destroy.cpp:51-56 and 86-92, and hearty-store-put.cpp:239-260
leave `descCount = 0`.

Each descriptor record is the raw `sizeof(BlockMetadata)` dump of the
writing process's in-memory struct.  Its `object_id` component here names
the characters the writer's `std::string` held — they determine the dumped
object representation — but those characters are NOT recoverable file
content: what a later process gets back from this field is given by
`MetaFile.descView` / `reloadDescriptor` below.  (The header record,
`StoreMetadata`, is all ints/size_t/bool and round-trips faithfully.) -/
structure MetaFile where
  header : StoreMetadata
  descCount : Nat
  descs : Nat → BlockMetadata

/-- The value a *later* process recovers for a stored `object_id`.
`saveMetadata` raw-dumps each descriptor with
`file.write(reinterpret_cast<const char*>(&block), sizeof(BlockMetadata))`
(hearty-store-put.cpp:62-64), so the `std::string object_id` member goes to
disk as its libstdc++ object representation — heap pointer, size field and
16-byte SSO buffer — never as file content denoting its characters: a
generated id (13-digit millisecond timestamp, `_`, 4 digits = 18
characters) exceeds the 15-character SSO capacity, so its characters live
only on the writing process's heap, and even for a short string the
reloaded `_M_p` still points into the defunct writer's address space, not
at the reader's own SSO buffer.  The dumped size field does round-trip,
so a descriptor stored with the empty id reloads as a (safely) empty
string; a stored nonempty id reloads as a dangling representation whose
observable value cannot be the original characters nor any string a later
invocation builds (command-line arguments cannot contain a NUL byte and
generated ids are digits and underscores).  We model that reloaded value
by the reserved NUL-prefixed constant `danglingId`; in reality comparing
it may even crash the reader, which only makes the lookups that fail in
this model fail harder.  Each command is a separate process (spec §5:
one operation per invocation), so every `loadMetadata` is such a
cross-process reload. -/
def danglingId : String := "\u0000dangling"

def reloadObjectId (s : String) : String := if s = "" then "" else danglingId

/-- The descriptor as recovered by a later process's read: the POD fields
(`bool is_used`, `size_t data_size`, `time_t timestamp`) round-trip
byte-for-byte; the `object_id` string does not (see `danglingId`). -/
def reloadDescriptor (b : BlockMetadata) : BlockMetadata :=
  { b with object_id := reloadObjectId b.object_id }

/-- The in-memory descriptor array after `loadMetadata`
(hearty-store-put.cpp:32-49, hearty-store-get.cpp:29-44): `NUM_BLOCKS`
descriptors are read from the file; a read past the end of the file fails
and leaves the value-initialized descriptor behind, and a successful read
recovers the POD fields but not the object-id characters
(`reloadDescriptor`). -/
def MetaFile.descView (f : MetaFile) : Nat → BlockMetadata :=
  fun i => if i < f.descCount then reloadDescriptor (f.descs i) else {}

/-- A `metadata.bin` image holding only the store header, as produced by the
truncating `std::ofstream` writes of a single `StoreMetadata` record
(hearty-store-ha.cpp:46-51, hearty-store-destroy.cpp:51-56 and 86-92,
hearty-store-put.cpp:239-260). -/
def headerOnlyMeta (h : StoreMetadata) : MetaFile :=
  { header := h, descCount := 0, descs := fun _ => {} }

/-- The byte contents of a `data.bin` / `parity.bin` region:
block index → byte offset → byte value. -/
def DataFile : Type := Nat → Nat → Nat

/-- The all-zeros data region written by `StoreInitializer::createDataFile`
(hearty-store-init.cpp:15-31) and `StoreHA::createParityFile`
(hearty-store-ha.cpp:60-72). -/
def zeroData : DataFile := fun _ _ => 0

/-- A `store_<id>` directory and its two (possibly missing) files. -/
structure StoreDir where
  dataFile : Option DataFile := none
  metaFile : Option MetaFile := none

/-- Modelled from the spec: the `HAGroupStatus` record.  Its declaration
lives in the part of the common header missing from src/ (only
hearty-store-common.hpp is present and predates the HA fields); the fields
are reconstructed from spec §3/§6 (`status.data`: `group_id`,
`store_count`, `destroyed_count`, then `store_count` member ids) and from
every use site: hearty-store-ha.cpp:219-234, hearty-store-destroy.cpp:59-65,
and the `std::vector<int> store_ids` member ranged over at
hearty-store-put.cpp:141 and hearty-store-get.cpp:161. -/
structure HAGroupStatus where
  group_id : Int
  store_count : Nat
  destroyed_count : Nat
  store_ids : List Int
deriving DecidableEq

/-- An `ha_group_<gid>` directory in its fully created form, holding
`parity.bin` and `status.data` (spec §3; created by
`StoreHA::createHAGroup`). -/
structure HAGroupDir where
  parity : DataFile
  status : HAGroupStatus

/-- The filesystem state under `BASE_PATH`: `store_<id>` directories and
`ha_group_<gid>` directories.  `none` means the directory does not exist. -/
structure FS where
  stores : Int → Option StoreDir
  groups : Int → Option HAGroupDir

/-- The empty base directory. -/
def FS.empty : FS := { stores := fun _ => none, groups := fun _ => none }

def FS.setStore (fs : FS) (id : Int) (s : Option StoreDir) : FS :=
  { fs with stores := fun j => if j = id then s else fs.stores j }

def FS.setGroup (fs : FS) (gid : Int) (g : Option HAGroupDir) : FS :=
  { fs with groups := fun j => if j = gid then g else fs.groups j }

/-- `utils::storeExists`, hearty-store-common.hpp:46-48: the `store_<id>`
directory exists. -/
def storeExists (fs : FS) (id : Int) : Bool := (fs.stores id).isSome

/-- Modelled from the spec: `utils::getHAPath` is declared in the part of
the common header missing from src/.  Its result is pinned by its uses:
hearty-store-ha.cpp:180-183 calls `create_directories` on it and appends
`PARITY_FILENAME` / `"/status.data"` to it (lines 191, 223), and
hearty-store-put.cpp:82-83 builds the same parity path by hand as
`BASE_PATH + "/ha_group_" + id + PARITY_FILENAME`; spec §6 names the
directory `ha_group_<decimal-id>`.  So `getHAPath gid` is the HA group
*directory* path, not a file inside it. -/
def getHAPath (gid : Int) : String := "/tmp/ha_group_" ++ toString gid

/-- The `status.data` path written by hearty-store-ha.cpp:223 and read by
hearty-store-destroy.cpp:60-62. -/
def getStatusDataPath (gid : Int) : String := getHAPath gid ++ "/status.data"

/-- The `HAGroupStatus` value left in `ha_status` by the status reads of
`StorePut::updateParity` (hearty-store-put.cpp:119-127) and
`StoreGet::reconstructFromParity` (hearty-store-get.cpp:137-144).  Both open
`utils::getHAPath(gid)` — the group *directory* itself — whereas the record
was written to `getHAPath(gid) + "/status.data"` (hearty-store-ha.cpp:223)
and is read from there by hearty-store-destroy.cpp:61.  On Linux, opening a
directory with `std::ifstream` succeeds (so the `if (!status_file)` guard
passes whenever the directory exists), but every subsequent `read` fails
with `EISDIR`, so the locally default-constructed `HAGroupStatus` keeps its
initial value: in particular `store_ids` is the empty vector.  (The scalar
`int` fields are indeterminate after the failed read, but neither caller
uses them; we pin them to 0.) -/
def statusReadFromDirectory : HAGroupStatus :=
  { group_id := 0, store_count := 0, destroyed_count := 0, store_ids := [] }

/-- Read a store's header (`loadStoreMetadata`, hearty-store-destroy.cpp:25-30
and hearty-store-ha.cpp:31-36): open `metadata.bin` and read one
`StoreMetadata` record. -/
def loadHeader (fs : FS) (sid : Int) : Option StoreMetadata :=
  ((fs.stores sid).bind (·.metaFile)).map (·.header)

/-! ## Store engine: put (hearty-store-put.cpp) -/

/-- The scan of `StorePut::findFreeBlock` (hearty-store-put.cpp:70-77) from
index `i` with `fuel` descriptors left to inspect. -/
def findFreeAux (bm : Nat → BlockMetadata) : Nat → Nat → Option Nat
  | _, 0 => none
  | i, fuel + 1 => if (bm i).is_used then findFreeAux bm (i + 1) fuel else some i

/-- `StorePut::findFreeBlock`, hearty-store-put.cpp:70-77: the first
descriptor index in `[0, NUM_BLOCKS)` with `is_used = false`, else `none`
(the C function returns −1). -/
def findFreeBlock (bm : Nat → BlockMetadata) : Option Nat :=
  findFreeAux bm 0 NUM_BLOCKS

/-- The scan of `StoreGet::findBlockByObjectId` (hearty-store-get.cpp:52-59)
from index `i` with `fuel` descriptors left to inspect. -/
def findBlockAux (bm : Nat → BlockMetadata) (oid : String) : Nat → Nat → Option Nat
  | _, 0 => none
  | i, fuel + 1 =>
      if (bm i).is_used = true ∧ (bm i).object_id = oid then some i
      else findBlockAux bm oid (i + 1) fuel

/-- `StoreGet::findBlockByObjectId`, hearty-store-get.cpp:52-59: the first
descriptor index in `[0, NUM_BLOCKS)` that is used and carries `oid`. -/
def findBlockByObjectId (bm : Nat → BlockMetadata) (oid : String) : Option Nat :=
  findBlockAux bm oid 0 NUM_BLOCKS

/-- The data write of `StorePut::writeToBlock` (hearty-store-put.cpp:92-100):
exactly `bytes_read = payload.length` bytes go to the start of block `b`;
the rest of the data region keeps its previous contents (the file is opened
in|out, not truncated). -/
def writeData (d : DataFile) (b : Nat) (payload : List Nat) : DataFile :=
  fun k i => if k = b ∧ i < payload.length then payload.getD i 0 else d k i

/-- The oracle inputs of a put: the object id produced by
`generateUniqueId` (hearty-store-put.cpp:17-30) and the value of
`std::time(nullptr)` at hearty-store-put.cpp:106. -/
structure PutEnv where
  object_id : String
  timestamp : Nat

/-- The peer-XOR accumulation shared by the `store_ids` loops of
`StorePut::updateParity` (hearty-store-put.cpp:141-164) and
`StoreGet::reconstructFromParity` (hearty-store-get.cpp:161-184), starting
from accumulator byte `init`: every listed store is XOR-ed in, skipping the
calling store itself, stores whose `metadata.bin` cannot be opened,
destroyed stores, and stores whose `data.bin` cannot be opened
(`continue` in all four cases). -/
def xorPeersFrom (fs : FS) (selfId : Int) (ids : List Int) (k i : Nat) (init : Nat) : Nat :=
  ids.foldl (fun acc sid =>
    if sid = selfId then acc
    else
      match (fs.stores sid).bind (·.metaFile) with
      | none => acc
      | some m =>
        if m.header.is_destroyed then acc
        else
          match (fs.stores sid).bind (·.dataFile) with
          | none => acc
          | some d => Nat.xor acc (d k i)) init

/-- `StorePut::updateParity`, hearty-store-put.cpp:113-190, called with the
writing store's in-memory header.  Its status read opens the group
*directory* (see `statusReadFromDirectory`), so when the directory exists
the peer loop folds over an empty `store_ids` and each parity block ends up
as the XOR of no peers with the writing store's own block, i.e. a copy of
the writing store's data.  If the directory does not exist the `ifstream`
open fails and `updateParity` returns `false`, which `put` downgrades to a
warning (hearty-store-put.cpp:311-313); likewise when the writing store's
own data file cannot be re-opened (line 169). -/
def putUpdateParity (fs : FS) (selfId : Int) (h : StoreMetadata) : FS :=
  if h.ha_group_id = -1 then fs
  else
    match fs.groups h.ha_group_id with
    | none => fs
    | some g =>
      match (fs.stores selfId).bind (·.dataFile) with
      | none => fs
      | some d =>
        fs.setGroup h.ha_group_id (some
          { g with parity := fun k i =>
              if k < NUM_BLOCKS then
                Nat.xor (xorPeersFrom fs selfId statusReadFromDirectory.store_ids k i 0) (d k i)
              else g.parity k i })

/-- `StorePut::syncWithReplica`, hearty-store-put.cpp:192-272, called with
the writing store's in-memory header after `saveMetadata`.  The partner's
data region becomes a byte-for-byte copy of the caller's; the partner's
`metadata.bin` is truncated and rewritten with just the caller's on-disk
header, with `store_id` set to the partner and the mirror roles flipped
(lines 245-260) — the descriptor array is not copied.  Every checked
failure only produces a warning in `put`. -/
def putSyncReplica (fs : FS) (selfId : Int) (h : StoreMetadata) : FS :=
  if h.is_replica = false ∧ h.replica_of = -1 then fs
  else
    match fs.stores h.replica_of with
    | none => fs
    | some rel =>
      match rel.dataFile with
      | none => fs
      | some relD =>
        match (fs.stores selfId).bind (·.dataFile) with
        | none => fs
        | some srcData =>
          match (fs.stores selfId).bind (·.metaFile) with
          | none => fs
          | some smf =>
            fs.setStore h.replica_of (some
              { dataFile := some (fun k i => if k < NUM_BLOCKS then srcData k i else relD k i),
                metaFile := some (headerOnlyMeta
                  { smf.header with
                      store_id := h.replica_of,
                      is_replica := !h.is_replica,
                      replica_of := h.store_id }) })

/-- `StorePut::put`, hearty-store-put.cpp:277-321, together with the private
helpers it calls.  `payload` is the byte contents of the input file (main
checks that the file exists); `env` supplies the oracle values.  The first
component is the object id printed on success (`none` means the put failed
and main exits 1); the second is the resulting filesystem.  The saved
image records `env.object_id` in descriptor `b` as the characters the
writing process's string held; what any later invocation can read back
from that field is `reloadDescriptor`'s view, not those characters. -/
def put (fs : FS) (store_id : Int) (payload : List Nat) (env : PutEnv) : Option String × FS :=
  match (fs.stores store_id).bind (·.metaFile) with
  | none => (none, fs)
  | some mf =>
    if payload.length > BLOCK_SIZE then (none, fs)
    else
      match findFreeBlock mf.descView with
      | none => (none, fs)
      | some b =>
        match (fs.stores store_id).bind (·.dataFile) with
        | none => (none, fs)
        | some d =>
          let view' : Nat → BlockMetadata := fun i =>
            if i = b then
              { is_used := true, object_id := env.object_id,
                data_size := payload.length, timestamp := env.timestamp }
            else mf.descView i
          let header' := { mf.header with used_blocks := mf.header.used_blocks + 1 }
          let mf' : MetaFile := { header := header', descCount := NUM_BLOCKS, descs := view' }
          let fs1 := fs.setStore store_id (some
            { dataFile := some (writeData d b payload), metaFile := some mf' })
          let fs2 := putUpdateParity fs1 store_id header'
          let fs3 := putSyncReplica fs2 store_id header'
          (some env.object_id, fs3)

/-! ## Store engine: get (hearty-store-get.cpp) -/

/-- `StoreGet::readBlock`, hearty-store-get.cpp:200-222: read
`data_size` bytes from the start of block `b` and write them to the
output. -/
def readBlock (st : StoreDir) (view : Nat → BlockMetadata) (b : Nat) : Option (List Nat) :=
  match st.dataFile with
  | none => none
  | some d => some ((List.range (view b).data_size).map (fun i => d b i))

/-- `StoreGet::reconstructFromParity`, hearty-store-get.cpp:131-190.  The
output buffer starts as parity block `b` and every readable non-destroyed
peer listed in the status is XOR-ed in; exactly `BLOCK_SIZE` bytes are
written.  The status read opens the group *directory* (see
`statusReadFromDirectory`): when the directory is missing the open fails
and the function returns `false`; when it exists the read fails and the
peer list is empty, so the output is the raw parity block. -/
def reconstructFromParity (fs : FS) (selfId : Int) (h : StoreMetadata) (b : Nat) :
    Option (List Nat) :=
  if h.ha_group_id = -1 then none
  else
    match fs.groups h.ha_group_id with
    | none => none
    | some g =>
      some ((List.range BLOCK_SIZE).map (fun i =>
        xorPeersFrom fs selfId statusReadFromDirectory.store_ids b i (g.parity b i)))

/-- `StoreGet::readFromReplica`, hearty-store-get.cpp:70-121.  Note the
partner-id computation at lines 76-78: for a store that is not itself a
replica the "replica" read goes to the store's own id. -/
def readFromReplica (fs : FS) (h : StoreMetadata) (oid : String) : Option (List Nat) :=
  if h.replica_of = -1 ∧ h.is_replica = false then none
  else
    let rid := if h.is_replica then h.replica_of else h.store_id
    match (fs.stores rid).bind (·.metaFile) with
    | none => none
    | some rmf =>
      match findBlockByObjectId rmf.descView oid with
      | none => none
      | some b =>
        match (fs.stores rid).bind (·.dataFile) with
        | none => none
        | some d => some ((List.range (rmf.descView b).data_size).map (fun i => d b i))

/-- `StoreGet::get`, hearty-store-get.cpp:235-265, together with main's
store-existence check (hearty-store-get.cpp:280).  The result is the byte
sequence written to stdout; `none` means the command exits 1 with nothing
on stdout.  `findBlockByObjectId` runs on `loadMetadata`'s view, so the
`object_id` values it compares against the query are the reloaded dangling
representations, not the ids the writing process generated. -/
def get (fs : FS) (store_id : Int) (oid : String) : Option (List Nat) :=
  match fs.stores store_id with
  | none => none
  | some st =>
    match st.metaFile with
    | none => none
    | some mf =>
      if mf.header.is_destroyed then
        match findBlockByObjectId mf.descView oid with
        | none => none
        | some b =>
          match reconstructFromParity fs store_id mf.header b with
          | some bytes => some bytes
          | none => readFromReplica fs mf.header oid
      else
        match findBlockByObjectId mf.descView oid with
        | none => none
        | some b => readBlock st mf.descView b

/-! ## Store engine: init (hearty-store-init.cpp) -/

/-- The header written by `StoreInitializer::initializeMetadata`
(hearty-store-init.cpp:51-61). -/
def freshHeader (id : Int) : StoreMetadata :=
  { store_id := id, total_blocks := NUM_BLOCKS, block_size := BLOCK_SIZE,
    used_blocks := 0, is_replica := false, replica_of := -1,
    ha_group_id := -1, is_destroyed := false }

/-- The `metadata.bin` image written by `StoreInitializer::createMetadataFile`
(hearty-store-init.cpp:33-49): the fresh header and `NUM_BLOCKS`
value-initialized descriptors (hearty-store-init.cpp:62-68 clears
`is_used`/`data_size`/`timestamp`; `object_id` is the empty string from
`resize`). -/
def freshMetaFile (id : Int) : MetaFile :=
  { header := freshHeader id, descCount := NUM_BLOCKS, descs := fun _ => {} }

/-- A freshly initialized store directory: zeroed 1 GiB `data.bin` and the
fresh metadata image. -/
def freshStore (id : Int) : StoreDir :=
  { dataFile := some zeroData, metaFile := some (freshMetaFile id) }

/-- Fault flags for the checked I/O failures of init:
`create_directories` throwing (hearty-store-init.cpp:86-91) and the
`if (!file)` guards of `createDataFile` / `createMetadataFile`
(hearty-store-init.cpp:17-20 and 34-38). -/
structure InitFaults where
  dirOk : Bool := true
  dataOk : Bool := true
  metaOk : Bool := true

/-- `StoreInitializer::initStore`, hearty-store-init.cpp:76-114.  On a
data-file failure nothing is cleaned up (line 103-105); on a metadata-file
failure only `data.bin` is removed (lines 107-111) — the store directory
itself stays behind in both cases. -/
def initStore (fs : FS) (id : Int) (fl : InitFaults) : Bool × FS :=
  if storeExists fs id then (false, fs)
  else if fl.dirOk = false then (false, fs)
  else
    let fs1 := fs.setStore id (some {})
    if fl.dataOk = false then (false, fs1)
    else
      let fs2 := fs1.setStore id (some { dataFile := some zeroData })
      if fl.metaOk = false then (false, fs2.setStore id (some { dataFile := none }))
      else (true, fs2.setStore id (some (freshStore id)))

/-- main of hearty-store-init.cpp:117-146: rejects a negative store id
before calling `initStore`; the first component is the exit code. -/
def initCmd (fs : FS) (id : Int) (fl : InitFaults) : Nat × FS :=
  if id < 0 then (1, fs)
  else
    let r := initStore fs id fl
    (if r.1 then 0 else 1, r.2)

/-! ## HA manager: group creation (hearty-store-ha.cpp) -/

/-- The per-member validation of `StoreHA::validateStores`
(hearty-store-ha.cpp:137-159): the store directory exists, its metadata is
readable, it is in no HA group, and it is not part of a replica pair. -/
def validMember (fs : FS) (sid : Int) : Bool :=
  match fs.stores sid with
  | none => false
  | some st =>
    match st.metaFile with
    | none => false
    | some mf =>
      decide (mf.header.ha_group_id = -1) &&
      !(mf.header.is_replica || decide (mf.header.replica_of ≠ -1))

/-- `StoreHA::validateStores`, hearty-store-ha.cpp:128-162: duplicate ids
are rejected (via the `std::set` size comparison), then every member is
checked. -/
def validateStores (fs : FS) (ids : List Int) : Bool :=
  decide ids.Nodup && ids.all (validMember fs)

/-- `StoreHA::updateParity`, hearty-store-ha.cpp:81-119: every parity block
`k < NUM_BLOCKS` is recomputed from scratch as the XOR of block `k` of
*every* listed store (no destroyed-store filter here, unlike the put-side
update); the function fails if any member's `data.bin` cannot be opened
(line 97).  The blocks the loop does not touch keep the zeros written by
`createParityFile` (hearty-store-ha.cpp:60-72); the unreachable `0` in the
fold's data lookup is only there to make the function total. -/
def haInitialParity (fs : FS) (ids : List Int) : Option DataFile :=
  if ids.all (fun sid => ((fs.stores sid).bind (·.dataFile)).isSome) then
    some (fun k i =>
      if k < NUM_BLOCKS then
        ids.foldl (fun acc sid =>
          Nat.xor acc
            (match (fs.stores sid).bind (·.dataFile) with
             | some d => d k i
             | none => 0)) 0
      else 0)
  else none

/-- `StoreHA::createHAGroup`, hearty-store-ha.cpp:172-238, plus main's
argument check (hearty-store-ha.cpp:243: argc ≥ 3, so at least two ids are
present and the empty branch below is unreachable from main).  After the initial parity is
built, every member's header gets `ha_group_id := members[0]` through
`saveStoreMetadata` (hearty-store-ha.cpp:46-51) — a truncating write of the
header alone, which erases the member's descriptor array; a member whose
metadata cannot be loaded is skipped (line 208).  Finally `status.data` is
written with `destroyed_count = 0` and the member ids in input order
(hearty-store-ha.cpp:218-235). -/
def createHAGroup (fs : FS) (ids : List Int) : Bool × FS :=
  match ids with
  | [] => (false, fs)
  | gid :: _ =>
    if validateStores fs ids = false then (false, fs)
    else
      match haInitialParity fs ids with
      | none => (false, fs)
      | some par =>
        let fs1 := ids.foldl (fun acc sid =>
          match acc.stores sid with
          | none => acc
          | some st =>
            match st.metaFile with
            | none => acc
            | some mf =>
              acc.setStore sid (some
                { st with metaFile := some (headerOnlyMeta
                    { mf.header with ha_group_id := gid }) })) fs
        (true, fs1.setGroup gid (some
          { parity := par,
            status := { group_id := gid, store_count := ids.length,
                        destroyed_count := 0, store_ids := ids } }))

/-! ## Destroy (hearty-store-destroy.cpp) -/

/-- The truncating header rewrite of a store's `metadata.bin`
(hearty-store-destroy.cpp:51-56 and 86-92): the descriptors are lost.
Fails (`none`) when the store directory does not exist, so the file cannot
be created. -/
def writeHeaderOnly (fs : FS) (sid : Int) (h : StoreMetadata) : Option FS :=
  match fs.stores sid with
  | none => none
  | some st => some (fs.setStore sid (some { st with metaFile := some (headerOnlyMeta h) }))

/-- One iteration of the reap loop, hearty-store-destroy.cpp:71-107.
`selfMeta` is the in-memory header of the store being destroyed (already
marked `is_destroyed`, `ha_group_id` still set); for every other id the
header is loaded from disk (failure aborts the whole destroy).  The target
header is rewritten with `ha_group_id = −1` (a truncating header-only
write at the id recorded *in the header*); an already-destroyed target's
directory is removed; and the group directory of the target's old
`ha_group_id` is removed (this `remove_all` sits inside the loop). -/
def reapMember (selfMeta : StoreMetadata) (fs : FS) (sid : Int) : Option FS :=
  match (if sid = selfMeta.store_id then some selfMeta else loadHeader fs sid) with
  | none => none
  | some target =>
    let temp := target.ha_group_id
    match writeHeaderOnly fs target.store_id { target with ha_group_id := -1 } with
    | none => none
    | some fs1 =>
      let fs2 := if target.is_destroyed then fs1.setStore sid none else fs1
      some (fs2.setGroup temp none)

/-- The reap loop over the member ids read from the `status.data` snapshot
(hearty-store-destroy.cpp:71-107).  A failed iteration returns `false`
with the partial state, exactly as the early `return false`s do. -/
def reapLoop (selfMeta : StoreMetadata) : FS → List Int → Bool × FS
  | fs, [] => (true, fs)
  | fs, sid :: rest =>
    match reapMember selfMeta fs sid with
    | none => (false, fs)
    | some fs' => reapLoop selfMeta fs' rest

/-- `StoreDestroy::destroyStore`, hearty-store-destroy.cpp:40-155.
HA branch: the member's header is rewritten with `is_destroyed = true`
(truncating, descriptors lost), `status.data` is read (a snapshot at open —
see the module comment on stream buffering), and the incremented
`destroyed_count` selects either the rewrite-status branch (the member-id
list is copied from the snapshot) or the reap loop.  When the group
directory is missing, the unchecked `ifstream` at line 62 leaves the
status record indeterminate and the code branches on garbage; no claim
reaches that case and we return success with just the flag written, as the
loop over an indeterminate `store_count` cannot be modelled.
Mirror/standalone branch: a mirrored store first destroys its partner
(recursion guarded by `related`; the partner call's result is ignored),
then the store's own directory is removed.  The `utils::storeExists`
self-check at line 137 is subsumed here: the header load at the top
already succeeded, so the store's directory exists.

The recursion is bounded: the recursive call passes `related = true` and
the `related = true` run never recurses, so the call depth is at most 2;
`destroyStoreAux` makes that bound structural with a fuel argument whose
zero case is unreachable from `destroyStore`. -/
def destroyBody (recur : FS → Int → Bool × FS) (fs : FS) (store_id : Int)
    (related : Bool) : Bool × FS :=
  match loadHeader fs store_id with
  | none => (false, fs)
  | some md =>
    if md.ha_group_id ≠ -1 then
      let md' := { md with is_destroyed := true }
      match writeHeaderOnly fs store_id md' with
      | none => (false, fs)
      | some fs1 =>
        match fs1.groups md.ha_group_id with
        | none => (true, fs1)
        | some g =>
          let s := g.status
          let d' := s.destroyed_count + 1
          if d' > 1 then reapLoop md' fs1 (s.store_ids.take s.store_count)
          else
            (true, fs1.setGroup md.ha_group_id (some
              { g with status :=
                  { s with destroyed_count := d',
                           store_ids := s.store_ids.take s.store_count } }))
    else
      if (md.is_replica || md.replica_of ≠ -1) ∧ related = false then
        let fs1 := (recur fs md.replica_of).2
        (true, fs1.setStore store_id none)
      else (true, fs.setStore store_id none)

def destroyStoreAux : Nat → FS → Int → Bool → Bool × FS
  | 0, fs, _, _ => (false, fs)
  | fuel + 1, fs, store_id, related =>
    destroyBody (fun fs' sid' => destroyStoreAux fuel fs' sid' true) fs store_id related

/-- `StoreDestroy::destroyStore` proper: run the bounded recursion with
enough fuel for the maximal call depth (2). -/
def destroyStore (fs : FS) (store_id : Int) (related : Bool) : Bool × FS :=
  destroyStoreAux 2 fs store_id related

theorem destroyStore_eq_body (fs : FS) (store_id : Int) (related : Bool) :
    destroyStore fs store_id related =
      destroyBody (fun fs' sid' => destroyStoreAux 1 fs' sid' true) fs store_id related := rfl

/-- `StoreDestroy::destroy` (hearty-store-destroy.cpp:166-173) plus main's
exit code (hearty-store-destroy.cpp:176-198). -/
def destroyCmd (fs : FS) (store_id : Int) : Nat × FS :=
  if storeExists fs store_id = false then (1, fs)
  else
    let r := destroyStore fs store_id false
    (if r.1 then 0 else 1, r.2)

/-! ## Mirror manager: replicate (hearty-store-replicate.cpp) -/

/-- `StoreReplicate::replicate`, hearty-store-replicate.cpp:172-207, plus
the helpers it calls.  `new_id` is the oracle value of
`generateNewStoreId` (lines 23-35; its do-while guarantees it does not
collide with an existing store — a hypothesis in the theorems).  The only
precondition checks are the source-existence check (line 175) and the
mirror-pair check inside `updateSourceMetadata` (lines 89-92); each failure
after directory creation removes the replica directory again.  The source
header is rewritten in place (seekp(0) on an in|out stream, lines 96-97),
so the source's descriptors survive; the replica's metadata is the source
header with `store_id`/`is_replica`/`replica_of` adjusted followed by the
source's descriptors verbatim (lines 119-142). -/
def replicate (fs : FS) (source_id : Int) (new_id : Int) : Option Int × FS :=
  match fs.stores source_id with
  | none => (none, fs)
  | some src =>
    let fs1 := fs.setStore new_id (some {})
    match src.dataFile with
    | none => (none, fs1.setStore new_id none)
    | some d =>
      let fs2 := fs1.setStore new_id (some { dataFile := some d })
      match src.metaFile with
      | none => (none, fs2.setStore new_id none)
      | some smf =>
        let rmf : MetaFile :=
          { smf with header :=
              { smf.header with store_id := new_id, is_replica := true,
                                replica_of := source_id } }
        let fs3 := fs2.setStore new_id (some { dataFile := some d, metaFile := some rmf })
        if smf.header.is_replica = true ∨ smf.header.replica_of ≠ -1 then
          (none, fs3.setStore new_id none)
        else
          let smf' : MetaFile :=
            { smf with header := { smf.header with replica_of := new_id } }
          (some new_id, fs3.setStore source_id (some { src with metaFile := some smf' }))

/-! ## Basic lemmas about the filesystem state -/

@[simp] theorem FS.stores_setStore (fs : FS) (id : Int) (s : Option StoreDir) (j : Int) :
    (fs.setStore id s).stores j = if j = id then s else fs.stores j := rfl

@[simp] theorem FS.groups_setStore (fs : FS) (id : Int) (s : Option StoreDir) :
    (fs.setStore id s).groups = fs.groups := rfl

@[simp] theorem FS.groups_setGroup (fs : FS) (gid : Int) (g : Option HAGroupDir) (j : Int) :
    (fs.setGroup gid g).groups j = if j = gid then g else fs.groups j := rfl

@[simp] theorem FS.stores_setGroup (fs : FS) (gid : Int) (g : Option HAGroupDir) :
    (fs.setGroup gid g).stores = fs.stores := rfl

theorem FS.stores_setStore_self (fs : FS) (id : Int) (s : Option StoreDir) :
    (fs.setStore id s).stores id = s := by simp

theorem FS.stores_setStore_ne (fs : FS) (id : Int) (s : Option StoreDir)
    {j : Int} (h : j ≠ id) : (fs.setStore id s).stores j = fs.stores j := by simp [h]

/-! ## Lemmas about the descriptor scans -/

theorem findFreeAux_spec (bm : Nat → BlockMetadata) :
    ∀ fuel i b, findFreeAux bm i fuel = some b →
      i ≤ b ∧ b < i + fuel ∧ (bm b).is_used = false ∧
        ∀ j, i ≤ j → j < b → (bm j).is_used = true := by
  intro fuel
  induction fuel with
  | zero => intro i b h; simp [findFreeAux] at h
  | succ n ih =>
    intro i b h
    rw [findFreeAux] at h
    by_cases hu : (bm i).is_used
    · rw [if_pos hu] at h
      obtain ⟨h1, h2, h3, h4⟩ := ih (i + 1) b h
      refine ⟨by omega, by omega, h3, ?_⟩
      intro j hij hjb
      rcases Nat.eq_or_lt_of_le hij with rfl | hlt
      · exact hu
      · exact h4 j hlt hjb
    · rw [if_neg hu] at h
      cases h
      exact ⟨Nat.le_refl _, by omega, Bool.eq_false_iff.mpr hu, fun j hij hjb => absurd hij (by omega)⟩

theorem findFreeAux_none (bm : Nat → BlockMetadata) :
    ∀ fuel i, (∀ j, i ≤ j → j < i + fuel → (bm j).is_used = true) →
      findFreeAux bm i fuel = none := by
  intro fuel
  induction fuel with
  | zero => intro i _; rfl
  | succ n ih =>
    intro i h
    rw [findFreeAux, if_pos]
    · exact ih (i + 1) (fun j h1 h2 => h j (by omega) (by omega))
    · exact h i (Nat.le_refl _) (by omega)

/-- The first-free-descriptor discipline of `findFreeBlock`: a returned
index is in range, free, and everything before it is used. -/
theorem findFreeBlock_spec (bm : Nat → BlockMetadata) (b : Nat)
    (h : findFreeBlock bm = some b) :
    b < NUM_BLOCKS ∧ (bm b).is_used = false ∧ ∀ j, j < b → (bm j).is_used = true := by
  obtain ⟨_, h2, h3, h4⟩ := findFreeAux_spec bm NUM_BLOCKS 0 b h
  exact ⟨by omega, h3, fun j hj => h4 j (Nat.zero_le _) hj⟩

/-- When every descriptor is used, `findFreeBlock` finds nothing. -/
theorem findFreeBlock_none (bm : Nat → BlockMetadata)
    (h : ∀ j, j < NUM_BLOCKS → (bm j).is_used = true) :
    findFreeBlock bm = none :=
  findFreeAux_none bm NUM_BLOCKS 0 (fun j _ h2 => h j (by omega))

/-! ## Frame lemmas for the side-effecting steps of put -/

theorem putUpdateParity_stores (fs : FS) (sid : Int) (h : StoreMetadata) :
    (putUpdateParity fs sid h).stores = fs.stores := by
  rw [putUpdateParity]
  split
  · rfl
  · split
    · rfl
    · split
      · rfl
      · rfl

theorem putSyncReplica_stores_of_safe (fs : FS) (sid : Int) (h : StoreMetadata) (x : Int)
    (hs : h.replica_of ≠ x ∨ (h.is_replica = false ∧ h.replica_of = -1)) :
    (putSyncReplica fs sid h).stores x = fs.stores x := by
  rw [putSyncReplica]
  split
  · rfl
  · rename_i hguard
    rcases hs with hne | hskip
    · split
      · rfl
      · split
        · rfl
        · split
          · rfl
          · split
            · rfl
            · exact FS.stores_setStore_ne _ _ _ (fun he => hne he.symm)
    · exact absurd hskip hguard

/-- The condition under which `syncWithReplica` cannot clobber store `x`:
either the writing store is not mirrored at all, or its partner is a
different store. -/
def syncSafe (h : StoreMetadata) (x : Int) : Prop :=
  h.replica_of ≠ x ∨ (h.is_replica = false ∧ h.replica_of = -1)

instance (h : StoreMetadata) (x : Int) : Decidable (syncSafe h x) := by
  unfold syncSafe; infer_instance

/-! ## The shared success specification of put -/

/-- What a successful `put` does to the target store: the payload goes to
the first free block `b`, descriptor `b` is rewritten, `used_blocks` is
incremented, the rest of the descriptor view is unchanged, and the header
keeps every other field (including `is_destroyed`). -/
theorem put_spec (fs : FS) (id : Int) (st : StoreDir) (mf : MetaFile) (d : DataFile)
    (payload : List Nat) (env : PutEnv) (b : Nat)
    (hst : fs.stores id = some st) (hmf : st.metaFile = some mf)
    (hd : st.dataFile = some d)
    (hlen : payload.length ≤ BLOCK_SIZE)
    (hfree : findFreeBlock mf.descView = some b)
    (hsafe : syncSafe mf.header id) :
    ∃ fs', put fs id payload env = (some env.object_id, fs') ∧
      ∃ st', fs'.stores id = some st' ∧
        st'.dataFile = some (writeData d b payload) ∧
        ∃ mf', st'.metaFile = some mf' ∧
          mf'.header = { mf.header with used_blocks := mf.header.used_blocks + 1 } ∧
          mf'.descCount = NUM_BLOCKS ∧
          mf'.descs b = { is_used := true, object_id := env.object_id,
                          data_size := payload.length, timestamp := env.timestamp } ∧
          ∀ i, i ≠ b → mf'.descs i = mf.descView i := by
  rw [put, hst]
  simp only [Option.some_bind, hmf, hd, hfree]
  rw [if_neg (by omega)]
  refine ⟨_, rfl, ?_⟩
  have hsafe' : syncSafe { mf.header with used_blocks := mf.header.used_blocks + 1 } id := hsafe
  rw [putSyncReplica_stores_of_safe _ _ _ _ hsafe', putUpdateParity_stores,
    FS.stores_setStore_self]
  refine ⟨_, rfl, rfl, _, rfl, rfl, rfl, ?_, ?_⟩
  · simp
  · intro i hib
    simp [hib]

/-! ## C5: the put/get round trip -/

/-- The state after `init 1` on an empty base directory. -/
def fsInit1 : FS := (initStore FS.empty 1 {}).2

/-- A generated object id of the shape `<ms-since-epoch>_<4 digits>`
(hearty-store-put.cpp:17-30): 18 characters, beyond libstdc++'s
15-character SSO capacity. -/
def oid18 : String := "1732752000000_1234"

def env18 : PutEnv := ⟨oid18, 11⟩

set_option maxRecDepth 100000 in
/-- C5 fails on the code: after `init 1; put 1 <1 byte 0x41>` the put
succeeds and prints the generated object id, the payload byte is on disk,
and the descriptor's POD fields round-trip (`is_used = true`,
`data_size = 1`) — yet `get 1 <that id>`, running as its own later
process, writes nothing and exits 1 (`none`): `saveMetadata` dumped the
id's `std::string` object, not its characters, so the reloaded
descriptor's id is the dangling representation (`danglingId`), which can
never equal the queried id, and `findBlockByObjectId` finds no match. -/
theorem c5_put_get_roundtrip_fails_oid_lost :
    (put fsInit1 1 [65] env18).1 = some oid18 ∧
    (((put fsInit1 1 [65] env18).2.stores 1).bind (·.dataFile)).map (fun d => d 0 0) =
      some 65 ∧
    (((put fsInit1 1 [65] env18).2.stores 1).bind (·.metaFile)).map
      (fun m => (m.descView 0).is_used) = some true ∧
    (((put fsInit1 1 [65] env18).2.stores 1).bind (·.metaFile)).map
      (fun m => (m.descView 0).data_size) = some 1 ∧
    get (put fsInit1 1 [65] env18).2 1 oid18 = none := by decide

/-! ## C6: first-free-block allocation and the no-free-block failure -/

/-- C6.  `put` scans the descriptors in ascending index order and stores
the payload in the first descriptor with `is_used = false`; when every
descriptor is used it fails with the no-free-block error (`none`, so main
exits 1) and leaves the filesystem — data and metadata — unchanged. -/
theorem c6_put_first_free_block (fs : FS) (id : Int) (mf : MetaFile)
    (payload : List Nat) (env : PutEnv)
    (hmf : (fs.stores id).bind (·.metaFile) = some mf)
    (hlen : payload.length ≤ BLOCK_SIZE) :
    (∀ b, findFreeBlock mf.descView = some b →
        b < NUM_BLOCKS ∧ (mf.descView b).is_used = false ∧
          ∀ i, i < b → (mf.descView i).is_used = true) ∧
    ((∀ i, i < NUM_BLOCKS → (mf.descView i).is_used = true) →
        put fs id payload env = (none, fs)) ∧
    (∀ b d, findFreeBlock mf.descView = some b →
      (fs.stores id).bind (·.dataFile) = some d → syncSafe mf.header id →
      ∃ fs', put fs id payload env = (some env.object_id, fs') ∧
        ∃ st', fs'.stores id = some st' ∧
          st'.dataFile = some (writeData d b payload) ∧
          ∃ mf', st'.metaFile = some mf' ∧
            (mf'.descs b).is_used = true ∧
            (mf'.descs b).object_id = env.object_id ∧
            (mf'.descs b).data_size = payload.length) := by
  refine ⟨fun b hb => findFreeBlock_spec _ _ hb, fun hall => ?_, fun b d hb hd hsafe => ?_⟩
  · simp only [put, hmf]
    rw [if_neg (by omega), findFreeBlock_none _ hall]
  · rw [Option.bind_eq_some] at hmf
    obtain ⟨st, hstEq, hmfEq⟩ := hmf
    rw [hstEq, Option.some_bind] at hd
    obtain ⟨fs', hput, st', hst', hdata, mf', hmf', -, -, hdescb, -⟩ :=
      put_spec fs id st mf d payload env b hstEq hmfEq hd hlen hb hsafe
    exact ⟨fs', hput, st', hst', hdata, mf', hmf',
      by rw [hdescb], by rw [hdescb], by rw [hdescb]⟩

/-- A metadata image in which every descriptor is in use. -/
def usedMetaFile : MetaFile :=
  { header := freshHeader 9, descCount := NUM_BLOCKS,
    descs := fun _ => { is_used := true, object_id := "x", data_size := 0, timestamp := 0 } }

/-- A store whose 1024 blocks are all allocated. -/
def fsFull : FS :=
  FS.empty.setStore 9 (some { dataFile := some zeroData, metaFile := some usedMetaFile })

theorem c6_put_first_free_block_witness :
    (fsFull.stores 9).bind (·.metaFile) = some usedMetaFile ∧
    ((∀ b, findFreeBlock usedMetaFile.descView = some b →
        b < NUM_BLOCKS ∧ (usedMetaFile.descView b).is_used = false ∧
          ∀ i, i < b → (usedMetaFile.descView i).is_used = true) ∧
     ((∀ i, i < NUM_BLOCKS → (usedMetaFile.descView i).is_used = true) →
        put fsFull 9 [1] ⟨"y", 0⟩ = (none, fsFull)) ∧
     (∀ b d, findFreeBlock usedMetaFile.descView = some b →
       (fsFull.stores 9).bind (·.dataFile) = some d → syncSafe usedMetaFile.header 9 →
       ∃ fs', put fsFull 9 [1] ⟨"y", 0⟩ = (some "y", fs') ∧
         ∃ st', fs'.stores 9 = some st' ∧
           st'.dataFile = some (writeData d b [1]) ∧
           ∃ mf', st'.metaFile = some mf' ∧
             (mf'.descs b).is_used = true ∧
             (mf'.descs b).object_id = "y" ∧
             (mf'.descs b).data_size = [1].length)) :=
  ⟨rfl, c6_put_first_free_block fsFull 9 usedMetaFile [1] ⟨"y", 0⟩ rfl
    (by norm_num [BLOCK_SIZE])⟩

/-! ## C10: put never checks `is_destroyed` -/

/-- A metadata image with the header's `is_destroyed` flag cleared,
everything else unchanged (used to compare a destroyed store with its
non-destroyed twin). -/
def clearDestroyedMeta (mf : MetaFile) : MetaFile :=
  { mf with header := { mf.header with is_destroyed := false } }

/-- A store directory whose metadata image `mf` is replaced by
`clearDestroyedMeta mf`. -/
def clearDestroyedDir (st : StoreDir) (mf : MetaFile) : StoreDir :=
  { st with metaFile := some (clearDestroyedMeta mf) }

/-- C10.  `put` never reads the target's `is_destroyed` flag: on a store
whose metadata is readable, whose header is marked destroyed and which
still has a free block, a put of at most `BLOCK_SIZE` bytes succeeds and
has exactly the effects it has on the same store with the flag cleared —
the block is written, the descriptor is marked used with the new object
id, and `used_blocks` is incremented. -/
theorem c10_put_ignores_destroyed_flag (fs : FS) (id : Int) (st : StoreDir) (mf : MetaFile)
    (d : DataFile) (payload : List Nat) (env : PutEnv) (b : Nat)
    (hst : fs.stores id = some st) (hmf : st.metaFile = some mf)
    (hd : st.dataFile = some d)
    (hdes : mf.header.is_destroyed = true)
    (hlen : payload.length ≤ BLOCK_SIZE)
    (hfree : findFreeBlock mf.descView = some b)
    (hsafe : syncSafe mf.header id) :
    (∃ fs', put fs id payload env = (some env.object_id, fs') ∧
      ∃ st', fs'.stores id = some st' ∧
        st'.dataFile = some (writeData d b payload) ∧
        ∃ mf', st'.metaFile = some mf' ∧
          mf'.header = { mf.header with used_blocks := mf.header.used_blocks + 1 } ∧
          mf'.header.is_destroyed = true ∧
          mf'.descs b = { is_used := true, object_id := env.object_id,
                          data_size := payload.length, timestamp := env.timestamp }) ∧
    (∃ fs₀', put (fs.setStore id (some (clearDestroyedDir st mf)))
        id payload env = (some env.object_id, fs₀') ∧
      ∃ st₀', fs₀'.stores id = some st₀' ∧
        st₀'.dataFile = some (writeData d b payload) ∧
        ∃ mf₀', st₀'.metaFile = some mf₀' ∧
          mf₀'.header = { mf.header with
                          used_blocks := mf.header.used_blocks + 1,
                          is_destroyed := false } ∧
          mf₀'.descs b = { is_used := true, object_id := env.object_id,
                           data_size := payload.length, timestamp := env.timestamp }) := by
  constructor
  · obtain ⟨fs', hput, st', hst', hdata, mf', hmf', hheader, -, hdescb, -⟩ :=
      put_spec fs id st mf d payload env b hst hmf hd hlen hfree hsafe
    exact ⟨fs', hput, st', hst', hdata, mf', hmf', hheader,
      by rw [hheader]; exact hdes, hdescb⟩
  · obtain ⟨fs₀', hput, st₀', hst', hdata, mf₀', hmf', hheader, -, hdescb, -⟩ :=
      put_spec (fs.setStore id (some (clearDestroyedDir st mf))) id
        (clearDestroyedDir st mf) (clearDestroyedMeta mf)
        d payload env b (FS.stores_setStore_self _ _ _) rfl hd hlen hfree hsafe
    exact ⟨fs₀', hput, st₀', hst', hdata, mf₀', hmf', hheader, hdescb⟩

/-- A destroyed store's metadata image, all blocks free. -/
def destroyedMeta4 : MetaFile :=
  { header := { freshHeader 4 with is_destroyed := true },
    descCount := NUM_BLOCKS, descs := fun _ => {} }

/-- A store directory marked destroyed, with free blocks. -/
def destroyedStore4 : StoreDir :=
  { dataFile := some zeroData, metaFile := some destroyedMeta4 }

def fsDestroyed4 : FS := FS.empty.setStore 4 (some destroyedStore4)

theorem c10_put_ignores_destroyed_flag_witness :
    fsDestroyed4.stores 4 = some destroyedStore4 ∧
    destroyedMeta4.header.is_destroyed = true ∧
    ((∃ fs', put fsDestroyed4 4 [3] ⟨"z", 1⟩ = (some "z", fs') ∧
      ∃ st', fs'.stores 4 = some st' ∧
        st'.dataFile = some (writeData zeroData 0 [3]) ∧
        ∃ mf', st'.metaFile = some mf' ∧
          mf'.header = { destroyedMeta4.header with
                         used_blocks := destroyedMeta4.header.used_blocks + 1 } ∧
          mf'.header.is_destroyed = true ∧
          mf'.descs 0 = { is_used := true, object_id := "z",
                          data_size := 1, timestamp := 1 }) ∧
     (∃ fs₀', put (fsDestroyed4.setStore 4 (some (clearDestroyedDir destroyedStore4 destroyedMeta4)))
        4 [3] ⟨"z", 1⟩ = (some "z", fs₀') ∧
      ∃ st₀', fs₀'.stores 4 = some st₀' ∧
        st₀'.dataFile = some (writeData zeroData 0 [3]) ∧
        ∃ mf₀', st₀'.metaFile = some mf₀' ∧
          mf₀'.header = { destroyedMeta4.header with
                            used_blocks := destroyedMeta4.header.used_blocks + 1,
                            is_destroyed := false } ∧
          mf₀'.descs 0 = { is_used := true, object_id := "z",
                           data_size := 1, timestamp := 1 })) :=
  ⟨rfl, rfl, c10_put_ignores_destroyed_flag fsDestroyed4 4 destroyedStore4 destroyedMeta4
    zeroData [3] ⟨"z", 1⟩ 0 rfl rfl rfl rfl (by norm_num [BLOCK_SIZE]) rfl
    (Or.inr ⟨rfl, rfl⟩)⟩

/-! ## Concrete end-to-end traces -/

def envA : PutEnv := ⟨"oid1", 11⟩

def envB : PutEnv := ⟨"oid2", 12⟩

/-- `init 1` then `init 2` on an empty base directory. -/
def fs2b : FS := (initStore fsInit1 2 {}).2

/-- ... then `ha 1 2`. -/
def fs2ha : FS := (createHAGroup fs2b [1, 2]).2

/-- ... then `put 1 <"A">` (one byte, 0x41). -/
def fs2p1 : FS := (put fs2ha 1 [65] envA).2

/-- ... then `put 2 <"B">` (one byte, 0x42). -/
def fs2p2 : FS := (put fs2p1 2 [66] envB).2

/-- ... or instead, after `put 1`, `destroy 1`. -/
def fs2d1 : FS := (destroyCmd fs2p1 1).2

/-! ## C1: the parity invariant after a put -/

/-- The right-hand side of the claimed invariant C1: the XOR over all
non-destroyed members `m` of the group of `m.data[k][i]`.  This definition
follows the claim's words (it is the spec-side formula the parity file is
compared against), not any single source function. -/
def liveMembersXor (fs : FS) (members : List Int) (k i : Nat) : Nat :=
  (members.filter (fun sid => (loadHeader fs sid).map (·.is_destroyed) == some false)).foldl
    (fun acc sid =>
      Nat.xor acc
        (match (fs.stores sid).bind (·.dataFile) with
         | some d => d k i
         | none => 0)) 0

set_option maxRecDepth 100000 in
/-- C1 fails on the code: in the live group `{1, 2}` (group id 1) with
`data[1][0] = "A"`-block and `data[2][0] = "B"`-block, after the second
successful put the parity byte at block 0, offset 0 is 0x42 (the writing
store's own byte: `StorePut::updateParity` reads the group status from the
group *directory* path, so its peer list is empty and parity degenerates to
a copy of the writer's data), whereas the claimed XOR over the two
non-destroyed members is 0x41 XOR 0x42 = 3. -/
theorem c1_parity_diverges_after_put :
    (put fs2p1 2 [66] envB).1 = some "oid2" ∧
    (fs2p2.groups 1).map (fun g => g.parity 0 0) = some 66 ∧
    liveMembersXor fs2p2 [1, 2] 0 0 = 3 ∧
    (fs2p2.groups 1).map (fun g => g.parity 0 0) ≠
      some (liveMembersXor fs2p2 [1, 2] 0 0) := by decide

/-! ## C2: degraded read after destroy -/

set_option maxRecDepth 100000 in
/-- C2 fails on the code: in the exact scenario of the claim
(`init 1; init 2; ha 1 2; put 1 "A"; destroy 1; get 1 oid1`), the get
writes nothing and exits 1 (`none`) instead of producing `BLOCK_SIZE`
reconstructed bytes: `destroy` rewrote the member's `metadata.bin` with
the header alone, so the object id is no longer found in the destroyed
member's metadata (and even with intact descriptors the reconstruction
would XOR in no peers, for the same wrong-status-path reason as C1). -/
theorem c2_degraded_get_fails :
    (put fs2ha 1 [65] envA).1 = some "oid1" ∧
    (destroyCmd fs2p1 1).1 = 0 ∧
    get fs2d1 1 "oid1" = none := by decide

/-! ## C7: get before and after ha -/

/-- `init 1; init 2;` then `put 1 <1 byte 0x41>` (before any ha). -/
def fs7p : FS := (put fs2b 1 [65] envA).2

/-- ... then `ha 1 2`. -/
def fs7ha : FS := (createHAGroup fs7p [1, 2]).2

theorem findBlockAux_none (bm : Nat → BlockMetadata) (oid : String)
    (h : ∀ j, ¬((bm j).is_used = true ∧ (bm j).object_id = oid)) :
    ∀ fuel i, findBlockAux bm oid i fuel = none := by
  intro fuel
  induction fuel with
  | zero => intro i; rfl
  | succ n ih =>
    intro i
    rw [findBlockAux, if_neg (h i)]
    exact ih (i + 1)

/-- No query string a later process can pass ever matches a reloaded
descriptor: every descriptor in a `loadMetadata` view carries either the
(safely) empty id or the dangling representation `danglingId`, and a
command-line query is neither a stored object id nor NUL-prefixed. -/
theorem findBlock_reload_none (mf : MetaFile) (oid : String)
    (h1 : oid ≠ "") (h2 : oid ≠ danglingId) :
    findBlockByObjectId mf.descView oid = none := by
  apply findBlockAux_none
  intro j hj
  obtain ⟨hu, hid⟩ := hj
  simp only [MetaFile.descView] at hu hid
  by_cases hlt : j < mf.descCount
  · rw [if_pos hlt] at hid
    simp only [reloadDescriptor, reloadObjectId] at hid
    by_cases hs : (mf.descs j).object_id = ""
    · rw [if_pos hs] at hid
      exact h1 hid.symm
    · rw [if_neg hs] at hid
      exact h2 hid.symm
  · rw [if_neg hlt] at hu
    exact absurd hu (by decide)

/-- On a non-destroyed store, a `get` by object id in a later process
never finds anything (the C5 bug, stated generally): the lookup runs on
the reloaded view, whose id fields are empty or dangling. -/
theorem get_reload_not_found (fs : FS) (m : Int) (oid : String)
    (h1 : oid ≠ "") (h2 : oid ≠ danglingId)
    (hnd : (loadHeader fs m).map (·.is_destroyed) ≠ some true) :
    get fs m oid = none := by
  rcases hst : fs.stores m with - | st
  · simp only [get, hst]
  · rcases hmf : st.metaFile with - | mf
    · simp only [get, hst, hmf]
    · have hload : loadHeader fs m = some mf.header := by
        rw [loadHeader, hst]
        simp [hmf]
      rw [hload] at hnd
      simp only [Option.map_some'] at hnd
      have hdes : mf.header.is_destroyed = false := by
        cases h : mf.header.is_destroyed
        · rfl
        · exact absurd (by rw [h]) hnd
      simp only [get, hst, hmf, hdes, Bool.false_eq_true, if_false,
        findBlock_reload_none mf oid h1 h2]

/-- C7.  For a non-destroyed member `m` and an object id stored in `m`
before the `ha` command, the output of `get m oid` after `ha` is
byte-for-byte identical to its output before `ha` — degenerately so:
`metadata.bin` never persists the object-id characters (see
`danglingId`), so BOTH invocations fail to find the id and produce the
same output, namely no bytes at all with exit 1, before and after the
group is formed; the second conjunct records that shared value.  (A
stored object id is a nonempty timestamp-underscore-digits string and a
command-line query contains no NUL byte, giving the two side
conditions.) -/
theorem c7_get_identical_before_and_after_ha (fs : FS) (ids : List Int) (m : Int)
    (oid : String)
    (h1 : oid ≠ "") (h2 : oid ≠ danglingId)
    (hnd : (loadHeader fs m).map (·.is_destroyed) ≠ some true)
    (hnd' : (loadHeader (createHAGroup fs ids).2 m).map (·.is_destroyed) ≠ some true) :
    get (createHAGroup fs ids).2 m oid = get fs m oid ∧ get fs m oid = none := by
  rw [get_reload_not_found fs m oid h1 h2 hnd,
    get_reload_not_found (createHAGroup fs ids).2 m oid h1 h2 hnd']
  exact ⟨rfl, rfl⟩

set_option maxRecDepth 100000 in
theorem c7_get_identical_before_and_after_ha_witness :
    (loadHeader fs7p 1).map (·.is_destroyed) = some false ∧
    (loadHeader fs7ha 1).map (·.is_destroyed) = some false ∧
    (createHAGroup fs7p [1, 2]).1 = true ∧
    (get (createHAGroup fs7p [1, 2]).2 1 "oid1" = get fs7p 1 "oid1" ∧
      get fs7p 1 "oid1" = none) :=
  ⟨by decide, by decide, by decide,
    c7_get_identical_before_and_after_ha fs7p [1, 2] 1 "oid1" (by decide) (by decide)
      (by decide) (by decide)⟩

/-! ## C8: replicate preconditions -/

/-- A store that is a member of HA group 3 and not mirrored. -/
def haMemberStore7 : StoreDir :=
  { dataFile := some zeroData,
    metaFile := some { header := { freshHeader 7 with ha_group_id := 3 },
                       descCount := NUM_BLOCKS, descs := fun _ => {} } }

def fsHAMember : FS := FS.empty.setStore 7 (some haMemberStore7)

/-- C8 as stated fails on the code: store 7 is an HA member
(`ha_group_id = 3 ≥ 0`) and not mirrored, yet `replicate 7` succeeds
(returns the fresh replica id 1000) and leaves the replica directory in
place — `StoreReplicate` never checks `ha_group_id`. -/
theorem c8_replicate_accepts_ha_member :
    (loadHeader fsHAMember 7).map (·.ha_group_id) = some 3 ∧
    (loadHeader fsHAMember 7).map (·.is_replica) = some false ∧
    (loadHeader fsHAMember 7).map (·.replica_of) = some (-1) ∧
    (fsHAMember.stores 1000).isSome = false ∧
    (replicate fsHAMember 7 1000).1 = some 1000 ∧
    ((replicate fsHAMember 7 1000).2.stores 1000).isSome = true := by decide

/-- C8 amended: `replicate source_id` fails — returns an error (main exits
non-zero) and leaves no replica store directory behind — when the source
store does not exist or is already part of a mirror pair (`is_replica` or
`replica_of ≥ 0`); membership in an HA group is not checked. -/
theorem c8_amended_replicate_preconditions (fs : FS) (sid nid : Int) :
    ((fs.stores sid).isNone = true → replicate fs sid nid = (none, fs)) ∧
    (∀ src mf, fs.stores sid = some src → src.metaFile = some mf →
      (mf.header.is_replica = true ∨ mf.header.replica_of ≠ -1) →
      (replicate fs sid nid).1 = none ∧
      (replicate fs sid nid).2.stores nid = none) := by
  constructor
  · intro h
    rw [Option.isNone_iff_eq_none] at h
    simp only [replicate, h]
  · intro src mf hsrc hmf hbad
    rcases hdf : src.dataFile with - | d
    · simp [replicate, hsrc, hdf]
    · simp only [replicate, hsrc, hdf, hmf]
      rw [if_pos hbad]
      exact ⟨rfl, by simp⟩

/-- A mirror-source store (`replica_of = 8`). -/
def mirrorSrc5 : StoreDir :=
  { dataFile := some zeroData,
    metaFile := some { header := { freshHeader 5 with replica_of := 8 },
                       descCount := NUM_BLOCKS, descs := fun _ => {} } }

def fsMirror5 : FS := FS.empty.setStore 5 (some mirrorSrc5)

theorem c8_amended_replicate_preconditions_witness :
    fsMirror5.stores 5 = some mirrorSrc5 ∧
    ((replicate fsMirror5 5 1000).1 = none ∧
      (replicate fsMirror5 5 1000).2.stores 1000 = none) :=
  ⟨rfl, (c8_amended_replicate_preconditions fsMirror5 5 1000).2 mirrorSrc5
    { header := { freshHeader 5 with replica_of := 8 },
      descCount := NUM_BLOCKS, descs := fun _ => {} }
    rfl rfl (Or.inr (by decide))⟩

/-! ## C9: init failure handling -/

/-- C9 as stated fails on the code: when the metadata file cannot be
created after the directory was made, init exits 1 but the partially
created `store_1` directory is still there. -/
theorem c9_init_leaves_partial_directory :
    (initCmd FS.empty 1 { metaOk := false }).1 = 1 ∧
    ((initCmd FS.empty 1 { metaOk := false }).2.stores 1).isSome = true := by decide

/-- C9 amended: `init` fails when `store_id < 0` or the store directory
already exists (leaving the filesystem unchanged); on a failure after the
directory was created the directory is NOT removed — a data-file creation
failure cleans up nothing, and a metadata-file creation failure removes
only `data.bin`, so an empty `store_<id>` directory remains in both
cases. -/
theorem c9_amended_init_failures (fs : FS) (id : Int) (fl : InitFaults) :
    (id < 0 → initCmd fs id fl = (1, fs)) ∧
    (0 ≤ id → storeExists fs id = true → initCmd fs id fl = (1, fs)) ∧
    (0 ≤ id → storeExists fs id = false → fl.dirOk = true → fl.dataOk = false →
      (initCmd fs id fl).1 = 1 ∧
      (initCmd fs id fl).2.stores id = some { dataFile := none, metaFile := none }) ∧
    (0 ≤ id → storeExists fs id = false → fl.dirOk = true → fl.dataOk = true →
      fl.metaOk = false →
      (initCmd fs id fl).1 = 1 ∧
      (initCmd fs id fl).2.stores id = some { dataFile := none, metaFile := none }) := by
  refine ⟨fun h => by rw [initCmd, if_pos h], fun h0 hex => ?_, fun h0 hex hdir hdata => ?_,
    fun h0 hex hdir hdata hmeta => ?_⟩
  · rw [initCmd, if_neg (by omega), initStore, if_pos hex]
    rfl
  · rw [initCmd, if_neg (by omega), initStore, if_neg (by simp [hex]),
      if_neg (by simp [hdir]), if_pos (by simp [hdata])]
    exact ⟨rfl, by simp⟩
  · rw [initCmd, if_neg (by omega), initStore, if_neg (by simp [hex]),
      if_neg (by simp [hdir]), if_neg (by simp [hdata]), if_pos (by simp [hmeta])]
    exact ⟨rfl, by simp⟩

theorem c9_amended_init_failures_witness :
    (0 : Int) ≤ 1 ∧ storeExists FS.empty 1 = false ∧
    ((initCmd FS.empty 1 { metaOk := false }).1 = 1 ∧
      (initCmd FS.empty 1 { metaOk := false }).2.stores 1 =
        some { dataFile := none, metaFile := none }) :=
  ⟨by decide, rfl,
    (c9_amended_init_failures FS.empty 1 { metaOk := false }).2.2.2
      (by decide) rfl rfl rfl rfl⟩

/-! ## C4: destroy of the first HA member -/

/-- C4.  When destroy targets an HA member and it is the group's first loss
(`destroyed_count` was 0, so the new count is 1), the member's directory
and files are not removed: the command succeeds, the member's directory is
still there with its `data.bin` untouched, its header is rewritten with
`is_destroyed = true`, `status.data` is rewritten with `destroyed_count`
incremented by one while `group_id`, `store_count` and the member-id list
are preserved, and no other store is touched. -/
theorem c4_destroy_first_loss_keeps_member (fs : FS) (t gid : Int)
    (hdr : StoreMetadata) (s : HAGroupStatus)
    (hload : loadHeader fs t = some hdr)
    (hgid : hdr.ha_group_id = gid) (hgidne : gid ≠ -1)
    (hstat : (fs.groups gid).map (·.status) = some s)
    (hzero : s.destroyed_count = 0)
    (hlen : s.store_ids.length = s.store_count) :
    (destroyCmd fs t).1 = 0 ∧
    (∃ st', (destroyCmd fs t).2.stores t = some st' ∧
      st'.dataFile = (fs.stores t).bind (·.dataFile) ∧
      st'.metaFile = some (headerOnlyMeta { hdr with is_destroyed := true })) ∧
    ((destroyCmd fs t).2.groups gid).map (·.status) =
      some { s with destroyed_count := 1 } ∧
    (∀ x, x ≠ t → (destroyCmd fs t).2.stores x = fs.stores x) := by
  subst hgid
  obtain ⟨mf, hbind, hmfhdr⟩ := Option.map_eq_some'.mp hload
  obtain ⟨st, hstEq, hmfEq⟩ := Option.bind_eq_some.mp hbind
  obtain ⟨g0, hg0, hg0s⟩ := Option.map_eq_some'.mp hstat
  have htake : s.store_ids.take s.store_count = s.store_ids := by
    rw [← hlen, List.take_length]
  have hnotlt : ¬ (g0.status.destroyed_count + 1 > 1) := by rw [hg0s, hzero]; omega
  rw [destroyCmd, if_neg (by simp [storeExists, hstEq]), destroyStore_eq_body]
  simp only [destroyBody, hload]
  rw [if_pos hgidne]
  simp only [writeHeaderOnly, hstEq]
  simp only [FS.groups_setStore, hg0]
  rw [if_neg hnotlt]
  refine ⟨rfl, ⟨{ st with
      metaFile := some (headerOnlyMeta { hdr with is_destroyed := true }) }, ?_, ?_, rfl⟩,
    ?_, ?_⟩
  · simp
  · rfl
  · simp [hg0s, hzero, htake]
  · intro x hx
    simp [hx]

/-- `init 1; init 2; init 3` on an empty base directory. -/
def fs3b : FS := (initStore fs2b 3 {}).2

/-- ... then `ha 1 2 3` (group id 1). -/
def fs3ha : FS := (createHAGroup fs3b [1, 2, 3]).2

/-- The header of each member after `ha 1 2 3`. -/
def hdrHA (i : Int) : StoreMetadata := { freshHeader i with ha_group_id := 1 }

/-- The group status right after `ha 1 2 3`. -/
def statHA123 : HAGroupStatus :=
  { group_id := 1, store_count := 3, destroyed_count := 0, store_ids := [1, 2, 3] }

set_option maxRecDepth 100000 in
theorem c4_destroy_first_loss_keeps_member_witness :
    loadHeader fs3ha 1 = some (hdrHA 1) ∧
    ((destroyCmd fs3ha 1).1 = 0 ∧
     (∃ st', (destroyCmd fs3ha 1).2.stores 1 = some st' ∧
       st'.dataFile = (fs3ha.stores 1).bind (·.dataFile) ∧
       st'.metaFile = some (headerOnlyMeta { hdrHA 1 with is_destroyed := true })) ∧
     ((destroyCmd fs3ha 1).2.groups 1).map (·.status) =
       some { statHA123 with destroyed_count := 1 } ∧
     (∀ x, x ≠ 1 → (destroyCmd fs3ha 1).2.stores x = fs3ha.stores x)) :=
  ⟨by decide, c4_destroy_first_loss_keeps_member fs3ha 1 1 (hdrHA 1) statHA123
    (by decide) (by decide) (by decide) (by decide) (by decide) (by decide)⟩

/-! ## C3: the reap loop -/

theorem loadHeader_congr {fs fs' : FS} {sid : Int}
    (h : fs'.stores sid = fs.stores sid) : loadHeader fs' sid = loadHeader fs sid := by
  rw [loadHeader, loadHeader, h]

/-- The reap step on the store being destroyed itself: header-only rewrite
with `ha_group_id = −1`, directory removal (it is marked destroyed), group
directory removal. -/
theorem reapMember_self (selfMeta : StoreMetadata) (fs : FS) (st : StoreDir)
    (hdes : selfMeta.is_destroyed = true)
    (hst : fs.stores selfMeta.store_id = some st) :
    reapMember selfMeta fs selfMeta.store_id =
      some (((fs.setStore selfMeta.store_id (some { st with
          metaFile := some (headerOnlyMeta { selfMeta with ha_group_id := -1 }) })).setStore
            selfMeta.store_id none).setGroup selfMeta.ha_group_id none) := by
  rw [reapMember, if_pos rfl]
  simp only [writeHeaderOnly, hst]
  rw [if_pos hdes]

/-- The reap step on an already-destroyed other member: header-only rewrite
and directory removal. -/
theorem reapMember_other_destroyed (selfMeta : StoreMetadata) (fs : FS) (sid : Int)
    (hdr : StoreMetadata) (st : StoreDir)
    (hne : sid ≠ selfMeta.store_id)
    (hload : loadHeader fs sid = some hdr) (hsid : hdr.store_id = sid)
    (hst : fs.stores sid = some st)
    (hdes : hdr.is_destroyed = true) :
    reapMember selfMeta fs sid =
      some (((fs.setStore sid (some { st with
          metaFile := some (headerOnlyMeta { hdr with ha_group_id := -1 }) })).setStore
            sid none).setGroup hdr.ha_group_id none) := by
  rw [reapMember, if_neg hne, hload]
  simp only [writeHeaderOnly, hsid, hst]
  rw [if_pos hdes]

/-- The reap step on a surviving other member: only the header-only rewrite
clearing `ha_group_id`; its directory stays. -/
theorem reapMember_other_alive (selfMeta : StoreMetadata) (fs : FS) (sid : Int)
    (hdr : StoreMetadata) (st : StoreDir)
    (hne : sid ≠ selfMeta.store_id)
    (hload : loadHeader fs sid = some hdr) (hsid : hdr.store_id = sid)
    (hst : fs.stores sid = some st)
    (hdes : hdr.is_destroyed = false) :
    reapMember selfMeta fs sid =
      some ((fs.setStore sid (some { st with
          metaFile := some (headerOnlyMeta { hdr with ha_group_id := -1 }) })).setGroup
            hdr.ha_group_id none) := by
  rw [reapMember, if_neg hne, hload]
  simp only [writeHeaderOnly, hsid, hst]
  rw [if_neg (by simp [hdes])]

/-- Invariant of the reap loop (hearty-store-destroy.cpp:71-107), proved
over the list of member ids read from the status snapshot: the loop
succeeds, removes the destroyed members' directories (including the store
being destroyed) and the group directory, clears `ha_group_id` in every
surviving member's header (a truncating header-only rewrite that keeps the
member's directory and `data.bin`), and touches nothing else. -/
theorem reapLoop_spec (selfMeta : StoreMetadata) (hselfdes : selfMeta.is_destroyed = true) :
    ∀ (ms : List Int) (fs : FS), ms.Nodup →
      (selfMeta.store_id ∈ ms → (fs.stores selfMeta.store_id).isSome = true) →
      (∀ sid ∈ ms, sid ≠ selfMeta.store_id →
        ∃ hdr, loadHeader fs sid = some hdr ∧ hdr.store_id = sid) →
      (reapLoop selfMeta fs ms).1 = true ∧
      (∀ x, x ∉ ms → (reapLoop selfMeta fs ms).2.stores x = fs.stores x) ∧
      (∀ g, fs.groups g = none → (reapLoop selfMeta fs ms).2.groups g = none) ∧
      (selfMeta.store_id ∈ ms →
        (reapLoop selfMeta fs ms).2.stores selfMeta.store_id = none ∧
        (reapLoop selfMeta fs ms).2.groups selfMeta.ha_group_id = none) ∧
      (∀ sid ∈ ms, sid ≠ selfMeta.store_id → ∀ hdr, loadHeader fs sid = some hdr →
        (hdr.is_destroyed = true → (reapLoop selfMeta fs ms).2.stores sid = none) ∧
        (hdr.is_destroyed = false →
          ∃ st', (reapLoop selfMeta fs ms).2.stores sid = some st' ∧
            st'.dataFile = (fs.stores sid).bind (·.dataFile) ∧
            st'.metaFile = some (headerOnlyMeta { hdr with ha_group_id := -1 }))) := by
  intro ms
  induction ms with
  | nil =>
    intro fs _ _ _
    exact ⟨rfl, fun x _ => rfl, fun g h => h,
      fun h => absurd h (List.not_mem_nil _),
      fun sid hsid => absurd hsid (List.not_mem_nil _)⟩
  | cons sid0 rest ih =>
    intro fs hnodup hself hothers
    obtain ⟨hnotin, hnodup'⟩ := List.nodup_cons.mp hnodup
    by_cases hsid0 : sid0 = selfMeta.store_id
    · subst hsid0
      obtain ⟨st, hst⟩ := Option.isSome_iff_exists.mp (hself (List.mem_cons_self _ _))
      have hstep : reapLoop selfMeta fs (selfMeta.store_id :: rest) =
          reapLoop selfMeta (((fs.setStore selfMeta.store_id (some { st with
            metaFile := some (headerOnlyMeta { selfMeta with ha_group_id := -1 }) })).setStore
              selfMeta.store_id none).setGroup selfMeta.ha_group_id none) rest := by
        rw [reapLoop, reapMember_self selfMeta fs st hselfdes hst]
      set F := (((fs.setStore selfMeta.store_id (some { st with
          metaFile := some (headerOnlyMeta { selfMeta with ha_group_id := -1 }) })).setStore
            selfMeta.store_id none).setGroup selfMeta.ha_group_id none) with hF
      have hSx : ∀ x, x ≠ selfMeta.store_id → F.stores x = fs.stores x := by
        intro x hx; simp [hF, hx]
      have hSt : F.stores selfMeta.store_id = none := by simp [hF]
      have hGnone : ∀ g, fs.groups g = none → F.groups g = none := by
        intro g hg
        by_cases h : g = selfMeta.ha_group_id
        · simp [hF, h]
        · simp [hF, h, hg]
      have hGgid : F.groups selfMeta.ha_group_id = none := by simp [hF]
      have hself' : selfMeta.store_id ∈ rest → (F.stores selfMeta.store_id).isSome = true :=
        fun hmem => absurd hmem hnotin
      have hothers' : ∀ sid ∈ rest, sid ≠ selfMeta.store_id →
          ∃ hdr, loadHeader F sid = some hdr ∧ hdr.store_id = sid := by
        intro sid hmem hne
        obtain ⟨hdr, hl, hs⟩ := hothers sid (List.mem_cons_of_mem _ hmem) hne
        exact ⟨hdr, by rw [loadHeader_congr (hSx sid hne)]; exact hl, hs⟩
      obtain ⟨ih1, ih2, ih3, ih4, ih5⟩ := ih F hnodup' hself' hothers'
      rw [hstep]
      refine ⟨ih1, ?_, ?_, ?_, ?_⟩
      · intro x hx
        have hxne : x ≠ selfMeta.store_id := fun he => hx (he ▸ List.mem_cons_self _ _)
        rw [ih2 x (fun hm => hx (List.mem_cons_of_mem _ hm)), hSx x hxne]
      · intro g hg
        exact ih3 g (hGnone g hg)
      · intro _
        exact ⟨by rw [ih2 _ hnotin]; exact hSt, ih3 _ hGgid⟩
      · intro sid hmem hne hdr hl
        have hmem' : sid ∈ rest := by
          rcases List.mem_cons.mp hmem with he | hm
          · exact absurd he hne
          · exact hm
        have hl' : loadHeader F sid = some hdr := by
          rw [loadHeader_congr (hSx sid hne)]; exact hl
        obtain ⟨hc1, hc2⟩ := ih5 sid hmem' hne hdr hl'
        refine ⟨hc1, fun hal => ?_⟩
        obtain ⟨st', h1, h2, h3⟩ := hc2 hal
        exact ⟨st', h1, by rw [h2, hSx sid hne], h3⟩
    · obtain ⟨hdr0, hl0, hs0⟩ := hothers sid0 (List.mem_cons_self _ _) hsid0
      obtain ⟨mf0, hb0, hh0⟩ := Option.map_eq_some'.mp hl0
      obtain ⟨st0, hst0, hmf0⟩ := Option.bind_eq_some.mp hb0
      have hmemT : selfMeta.store_id ∈ sid0 :: rest → selfMeta.store_id ∈ rest := by
        intro hm
        rcases List.mem_cons.mp hm with he | hm'
        · exact absurd he.symm hsid0
        · exact hm'
      by_cases hdes0 : hdr0.is_destroyed = true
      · have hstep : reapLoop selfMeta fs (sid0 :: rest) =
            reapLoop selfMeta (((fs.setStore sid0 (some { st0 with
              metaFile := some (headerOnlyMeta { hdr0 with ha_group_id := -1 }) })).setStore
                sid0 none).setGroup hdr0.ha_group_id none) rest := by
          rw [reapLoop, reapMember_other_destroyed selfMeta fs sid0 hdr0 st0 hsid0 hl0 hs0 hst0 hdes0]
        set F := (((fs.setStore sid0 (some { st0 with
            metaFile := some (headerOnlyMeta { hdr0 with ha_group_id := -1 }) })).setStore
              sid0 none).setGroup hdr0.ha_group_id none) with hF
        have hSx : ∀ x, x ≠ sid0 → F.stores x = fs.stores x := by
          intro x hx; simp [hF, hx]
        have hSt : F.stores sid0 = none := by simp [hF]
        have hGnone : ∀ g, fs.groups g = none → F.groups g = none := by
          intro g hg
          by_cases h : g = hdr0.ha_group_id
          · simp [hF, h]
          · simp [hF, h, hg]
        have hself' : selfMeta.store_id ∈ rest → (F.stores selfMeta.store_id).isSome = true := by
          intro hmem
          rw [hSx _ (fun he => hsid0 he.symm)]
          exact hself (List.mem_cons_of_mem _ hmem)
        have hothers' : ∀ sid ∈ rest, sid ≠ selfMeta.store_id →
            ∃ hdr, loadHeader F sid = some hdr ∧ hdr.store_id = sid := by
          intro sid hmem hne
          obtain ⟨hdr, hl, hs⟩ := hothers sid (List.mem_cons_of_mem _ hmem) hne
          have hsne : sid ≠ sid0 := fun he => hnotin (he ▸ hmem)
          exact ⟨hdr, by rw [loadHeader_congr (hSx sid hsne)]; exact hl, hs⟩
        obtain ⟨ih1, ih2, ih3, ih4, ih5⟩ := ih F hnodup' hself' hothers'
        rw [hstep]
        refine ⟨ih1, ?_, ?_, ?_, ?_⟩
        · intro x hx
          have hxne : x ≠ sid0 := fun he => hx (he ▸ List.mem_cons_self _ _)
          rw [ih2 x (fun hm => hx (List.mem_cons_of_mem _ hm)), hSx x hxne]
        · intro g hg
          exact ih3 g (hGnone g hg)
        · intro hm
          have hm' := hmemT hm
          exact ih4 hm'
        · intro sid hmem hne hdr hl
          rcases List.mem_cons.mp hmem with he | hm'
          · subst he
            have hhdr : hdr = hdr0 := by
              have := hl0.symm.trans hl
              exact (Option.some.inj this).symm
            subst hhdr
            refine ⟨fun _ => ?_, fun hal => absurd hdes0 (by simp [hal])⟩
            rw [ih2 sid hnotin]
            exact hSt
          · have hsne : sid ≠ sid0 := fun he => hnotin (he ▸ hm')
            have hl' : loadHeader F sid = some hdr := by
              rw [loadHeader_congr (hSx sid hsne)]; exact hl
            obtain ⟨hc1, hc2⟩ := ih5 sid hm' hne hdr hl'
            refine ⟨hc1, fun hal => ?_⟩
            obtain ⟨st', h1, h2, h3⟩ := hc2 hal
            exact ⟨st', h1, by rw [h2, hSx sid hsne], h3⟩
      · have hdes0' : hdr0.is_destroyed = false := by
          cases h : hdr0.is_destroyed
          · rfl
          · exact absurd h hdes0
        have hstep : reapLoop selfMeta fs (sid0 :: rest) =
            reapLoop selfMeta ((fs.setStore sid0 (some { st0 with
              metaFile := some (headerOnlyMeta { hdr0 with ha_group_id := -1 }) })).setGroup
                hdr0.ha_group_id none) rest := by
          rw [reapLoop, reapMember_other_alive selfMeta fs sid0 hdr0 st0 hsid0 hl0 hs0 hst0 hdes0']
        set F := ((fs.setStore sid0 (some { st0 with
            metaFile := some (headerOnlyMeta { hdr0 with ha_group_id := -1 }) })).setGroup
              hdr0.ha_group_id none) with hF
        have hSx : ∀ x, x ≠ sid0 → F.stores x = fs.stores x := by
          intro x hx; simp [hF, hx]
        have hSt : F.stores sid0 = some { st0 with
            metaFile := some (headerOnlyMeta { hdr0 with ha_group_id := -1 }) } := by
          simp [hF]
        have hGnone : ∀ g, fs.groups g = none → F.groups g = none := by
          intro g hg
          by_cases h : g = hdr0.ha_group_id
          · simp [hF, h]
          · simp [hF, h, hg]
        have hself' : selfMeta.store_id ∈ rest → (F.stores selfMeta.store_id).isSome = true := by
          intro hmem
          rw [hSx _ (fun he => hsid0 he.symm)]
          exact hself (List.mem_cons_of_mem _ hmem)
        have hothers' : ∀ sid ∈ rest, sid ≠ selfMeta.store_id →
            ∃ hdr, loadHeader F sid = some hdr ∧ hdr.store_id = sid := by
          intro sid hmem hne
          obtain ⟨hdr, hl, hs⟩ := hothers sid (List.mem_cons_of_mem _ hmem) hne
          have hsne : sid ≠ sid0 := fun he => hnotin (he ▸ hmem)
          exact ⟨hdr, by rw [loadHeader_congr (hSx sid hsne)]; exact hl, hs⟩
        obtain ⟨ih1, ih2, ih3, ih4, ih5⟩ := ih F hnodup' hself' hothers'
        rw [hstep]
        refine ⟨ih1, ?_, ?_, ?_, ?_⟩
        · intro x hx
          have hxne : x ≠ sid0 := fun he => hx (he ▸ List.mem_cons_self _ _)
          rw [ih2 x (fun hm => hx (List.mem_cons_of_mem _ hm)), hSx x hxne]
        · intro g hg
          exact ih3 g (hGnone g hg)
        · intro hm
          exact ih4 (hmemT hm)
        · intro sid hmem hne hdr hl
          rcases List.mem_cons.mp hmem with he | hm'
          · subst he
            have hhdr : hdr = hdr0 := by
              have := hl0.symm.trans hl
              exact (Option.some.inj this).symm
            subst hhdr
            refine ⟨fun hd => absurd hd (by simp [hdes0']), fun _ => ?_⟩
            refine ⟨{ st0 with
              metaFile := some (headerOnlyMeta { hdr with ha_group_id := -1 }) }, ?_, ?_, rfl⟩
            · rw [ih2 sid hnotin]
              exact hSt
            · rw [hst0]
              rfl
          · have hsne : sid ≠ sid0 := fun he => hnotin (he ▸ hm')
            have hl' : loadHeader F sid = some hdr := by
              rw [loadHeader_congr (hSx sid hsne)]; exact hl
            obtain ⟨hc1, hc2⟩ := ih5 sid hm' hne hdr hl'
            refine ⟨hc1, fun hal => ?_⟩
            obtain ⟨st', h1, h2, h3⟩ := hc2 hal
            exact ⟨st', h1, by rw [h2, hSx sid hsne], h3⟩

/-- C3.  When destroy targets an HA member and the group's
`destroyed_count` thereby reaches 2 (it was already ≥ 1), the group is
reaped: the command succeeds, the group directory is removed, the
destroyed member's own directory is removed, every other already-destroyed
member's directory is removed, and every surviving member keeps its
directory and `data.bin` but has `ha_group_id = −1` written into its
(header-only) metadata file. -/
theorem c3_second_destroy_reaps_group (fs : FS) (t gid : Int)
    (hdr : StoreMetadata) (s : HAGroupStatus)
    (hload : loadHeader fs t = some hdr)
    (hgid : hdr.ha_group_id = gid) (hgidne : gid ≠ -1) (hsid : hdr.store_id = t)
    (hstat : (fs.groups gid).map (·.status) = some s)
    (hone : 1 ≤ s.destroyed_count)
    (hmem : t ∈ s.store_ids.take s.store_count)
    (hnodup : (s.store_ids.take s.store_count).Nodup)
    (hothers : ∀ sid ∈ s.store_ids.take s.store_count, sid ≠ t →
      ∃ h, loadHeader fs sid = some h ∧ h.store_id = sid) :
    (destroyCmd fs t).1 = 0 ∧
    (destroyCmd fs t).2.groups gid = none ∧
    (destroyCmd fs t).2.stores t = none ∧
    (∀ sid ∈ s.store_ids.take s.store_count, sid ≠ t → ∀ h, loadHeader fs sid = some h →
      (h.is_destroyed = true → (destroyCmd fs t).2.stores sid = none) ∧
      (h.is_destroyed = false →
        ∃ st', (destroyCmd fs t).2.stores sid = some st' ∧
          st'.dataFile = (fs.stores sid).bind (·.dataFile) ∧
          st'.metaFile = some (headerOnlyMeta { h with ha_group_id := -1 }))) := by
  subst hgid
  subst hsid
  obtain ⟨mf, hbind, hmfhdr⟩ := Option.map_eq_some'.mp hload
  obtain ⟨st, hstEq, hmfEq⟩ := Option.bind_eq_some.mp hbind
  obtain ⟨g0, hg0, hg0s⟩ := Option.map_eq_some'.mp hstat
  have hlt : s.destroyed_count + 1 > 1 := by omega
  rw [destroyCmd, if_neg (by simp [storeExists, hstEq]), destroyStore_eq_body]
  simp only [destroyBody, hload]
  rw [if_pos hgidne]
  simp only [writeHeaderOnly, hstEq]
  simp only [FS.groups_setStore, hg0, hg0s]
  rw [if_pos hlt]
  -- the state at the start of the reap loop and the header it carries
  set md' : StoreMetadata := { hdr with is_destroyed := true } with hmd'
  set fs1 : FS := fs.setStore hdr.store_id (some { st with
    metaFile := some (headerOnlyMeta md') }) with hfs1
  have hfs1t : fs1.stores hdr.store_id = some { st with
      metaFile := some (headerOnlyMeta md') } := by simp [hfs1]
  have hfs1x : ∀ x, x ≠ hdr.store_id → fs1.stores x = fs.stores x := by
    intro x hx; simp [hfs1, hx]
  have hself1 : md'.store_id ∈ s.store_ids.take s.store_count →
      (fs1.stores md'.store_id).isSome = true := by
    intro _
    simp [hfs1]
  have hothers1 : ∀ sid ∈ s.store_ids.take s.store_count, sid ≠ md'.store_id →
      ∃ h, loadHeader fs1 sid = some h ∧ h.store_id = sid := by
    intro sid hm hne
    obtain ⟨h, hl, hs⟩ := hothers sid hm hne
    exact ⟨h, by rw [loadHeader_congr (hfs1x sid hne)]; exact hl, hs⟩
  obtain ⟨r1, r2, r3, r4, r5⟩ :=
    reapLoop_spec md' rfl (s.store_ids.take s.store_count) fs1 hnodup hself1 hothers1
  have hr4 := r4 hmem
  refine ⟨by rw [r1]; rfl, hr4.2, hr4.1, ?_⟩
  intro sid hm hne h hl
  have hl1 : loadHeader fs1 sid = some h := by
    rw [loadHeader_congr (hfs1x sid hne)]; exact hl
  obtain ⟨hc1, hc2⟩ := r5 sid hm hne h hl1
  refine ⟨hc1, fun hal => ?_⟩
  obtain ⟨st', h1, h2, h3⟩ := hc2 hal
  exact ⟨st', h1, by rw [h2, hfs1x sid hne], h3⟩

/-- The state after `init 1; init 2; init 3; ha 1 2 3; destroy 1`. -/
def fs3d1 : FS := (destroyCmd fs3ha 1).2

/-- The group status after the first destroy in the three-member group. -/
def statHA123d1 : HAGroupStatus :=
  { group_id := 1, store_count := 3, destroyed_count := 1, store_ids := [1, 2, 3] }

set_option maxRecDepth 400000 in
theorem c3_second_destroy_reaps_group_witness :
    loadHeader fs3d1 2 = some (hdrHA 2) ∧
    (fs3d1.groups 1).map (·.status) = some statHA123d1 ∧
    ((destroyCmd fs3d1 2).1 = 0 ∧
     (destroyCmd fs3d1 2).2.groups 1 = none ∧
     (destroyCmd fs3d1 2).2.stores 2 = none ∧
     (∀ sid ∈ statHA123d1.store_ids.take statHA123d1.store_count, sid ≠ 2 →
       ∀ h, loadHeader fs3d1 sid = some h →
       (h.is_destroyed = true → (destroyCmd fs3d1 2).2.stores sid = none) ∧
       (h.is_destroyed = false →
         ∃ st', (destroyCmd fs3d1 2).2.stores sid = some st' ∧
           st'.dataFile = (fs3d1.stores sid).bind (·.dataFile) ∧
           st'.metaFile = some (headerOnlyMeta { h with ha_group_id := -1 })))) :=
  ⟨by decide, by decide,
    c3_second_destroy_reaps_group fs3d1 2 1 (hdrHA 2) statHA123d1
      (by decide) (by decide) (by decide) (by decide) (by decide) (by decide)
      (by decide) (by decide)
      (by
        intro sid hm hne
        fin_cases hm
        · exact ⟨{ hdrHA 1 with is_destroyed := true }, by decide, by decide⟩
        · exact absurd rfl hne
        · exact ⟨hdrHA 3, by decide, by decide⟩)⟩

end HeartyStore
